import Mathlib

/-
Verification development for the newsletter-generation frontend
(andre-clickmovement/n8n-frontend).

Shallow embedding conventions:
  * TypeScript strings are Lean String; JavaScript falsiness of an optional
    string (undefined, null or the empty string) is the predicate strFalsy.
  * Wall-clock reads (new Date().toISOString()) are passed in explicitly as a
    String parameter called now.
  * A Supabase table is a List of records; an update by id maps over the list;
    a JSON body key whose value is the JS literal undefined is dropped by
    JSON.stringify and therefore leaves the stored column untouched, while an
    explicit null writes none.
  * Network sends are parameters (a function argument standing for fetch), so
    that the number of dispatch invocations is observable.
-/

namespace NE

/-- JS falsiness of an optional string: undefined, null and the empty string
are falsy (src code tests them with the bang operator). -/
def strFalsy : Option String → Bool
  | none => true
  | some s => s.toList.isEmpty

/-- The JS idiom value-or-null on an optional string: the empty string is
collapsed to null, anything else is kept. -/
def orNullStr : Option String → Option String
  | none => none
  | some s => if s.toList.isEmpty then none else some s

/-- The JS idiom value-or-null on an optional number: 0 is falsy and is
collapsed to null. -/
def orNullNat : Option Nat → Option Nat
  | none => none
  | some n => if n = 0 then none else some n

/-- Prefix test on strings, computed on the underlying character lists. -/
def strStartsWith (s pat : String) : Bool :=
  pat.toList.isPrefixOf s.toList

/-- Infix test on character lists. -/
def listInfixOf (pat : List Char) : List Char → Bool
  | [] => pat.isEmpty
  | c :: tail => pat.isPrefixOf (c :: tail) || listInfixOf pat tail

/-- Substring-anywhere test on strings, computed on character lists. -/
def strContainsSub (s pat : String) : Bool :=
  listInfixOf pat.toList s.toList

-- ---------------------------------------------------------------------------
-- Enumerations (src/types.ts)
-- ---------------------------------------------------------------------------

/-- src/types.ts ContentSource. -/
inductive ContentSource
  | twitter
  | youtube
  | article
deriving DecidableEq, Repr

/-- src/types.ts GenerationStatus. -/
inductive GenerationStatus
  | pending
  | processing
  | completed
  | failed
deriving DecidableEq, Repr

/-- src/types.ts VoiceProfileStatus. -/
inductive VoiceProfileStatus
  | draft
  | analyzing
  | ready
  | approved
deriving DecidableEq, Repr

/-- src/types.ts SentenceStyle. -/
inductive SentenceStyle
  | short
  | mixed
  | flowing
deriving DecidableEq, Repr

/-- src/types.ts VocabularyLevel. -/
inductive VocabularyLevel
  | simple
  | professional
  | academic
deriving DecidableEq, Repr

/-- src/types.ts ParagraphPattern. -/
inductive ParagraphPattern
  | short_mixed
  | long_flowing
  | varied
deriving DecidableEq, Repr

/-- src/types.ts WritingSample.source union type. -/
inductive SampleSource
  | newsletter
  | blog
  | twitter
  | email
deriving DecidableEq, Repr

/-- Status union of the completion callback (webhook.ts N8nCompletionPayload). -/
inductive CallbackStatus
  | completed
  | failed
deriving DecidableEq, Repr

/-- Status union of the synchronous dispatch reply (types.ts N8nWebhookResponse). -/
inductive SyncStatus
  | completed
  | failed
  | pending
deriving DecidableEq, Repr

-- ---------------------------------------------------------------------------
-- Data model (src/types.ts)
-- ---------------------------------------------------------------------------

/-- src/types.ts WritingSample. -/
structure WritingSample where
  text : String
  source : SampleSource
  url : Option String
deriving DecidableEq, Repr

/-- src/types.ts GenerationRequest.delivery_options. -/
structure DeliveryOptions where
  email : Bool
  google_drive : Bool
  slack : Option String
deriving DecidableEq, Repr

/-- src/types.ts GenerationRequest. profile_id, newsletter_name and
content_source are required fields; the conditional source fields are
optional. -/
structure GenerationRequest where
  profile_id : String
  newsletter_name : String
  content_source : ContentSource
  twitter_username : Option String
  youtube_url : Option String
  article_content : Option String
  custom_instructions : Option String
  delivery_options : Option DeliveryOptions
deriving DecidableEq, Repr

/-- src/types.ts VoiceProfile (formData fields plus bookkeeping). Numeric
scales are Nat; tone entries are the literal strings of TONE_OPTIONS. -/
structure VoiceProfile where
  id : String
  user_id : String
  profile_name : String
  newsletter_name : String
  tone : List String
  formality : Nat
  detail_level : Nat
  sentence_style : SentenceStyle
  vocabulary_level : VocabularyLevel
  common_phrases : List String
  avoid_phrases : List String
  uses_questions : Bool
  uses_data : Bool
  uses_anecdotes : Bool
  uses_metaphors : Bool
  uses_humor : Bool
  paragraph_pattern : ParagraphPattern
  samples : List WritingSample
  avg_sentence_length : Option Nat
  voice_prompt : Option String
  system_prompt : Option String
  status : VoiceProfileStatus
  total_generations : Nat
  average_rating : Option Nat
  approved_at : Option String
  last_used_at : Option String
  created_at : String
  updated_at : String
deriving DecidableEq, Repr

/-- src/types.ts NewsletterArticle, the persisted article shape. The webhook
payload declares a field-renamed variant of this shape; both are stored
verbatim in the newsletters column and only word_count is ever read by the
code under verification, so one structure models both. -/
structure NewsletterArticle where
  newsletter_number : Nat
  title : String
  subject_line : String
  preview_text : String
  content_markdown : String
  content_html : Option String
  word_count : Nat
  source_type : String
  newsletter_type : String
  google_drive_url : Option String
  google_drive_file_id : Option String
  generated_at : String
deriving DecidableEq, Repr

/-- src/types.ts GoogleDriveFile. -/
structure GoogleDriveFile where
  newsletter_number : Nat
  file_id : String
  file_url : String
deriving DecidableEq, Repr

/-- src/types.ts Generation, the stored generation record. -/
structure Generation where
  id : String
  user_id : String
  profile_id : Option String
  content_type : ContentSource
  content_source : String
  input_data : Option GenerationRequest
  status : GenerationStatus
  n8n_execution_id : Option String
  error_message : Option String
  newsletters : Option (List NewsletterArticle)
  google_drive_folder : Option String
  google_drive_files : Option (List GoogleDriveFile)
  execution_time_seconds : Option Nat
  api_cost : Option Nat
  word_count_total : Option Nat
  created_at : String
  started_at : Option String
  completed_at : Option String
deriving DecidableEq, Repr

-- ---------------------------------------------------------------------------
-- Dispatch client (src/services/n8nService.ts)
-- ---------------------------------------------------------------------------

/-- Character class of the Twitter-handle regex [a-zA-Z0-9_]. -/
def isHandleChar (c : Char) : Bool :=
  c.isAlpha || c.isDigit || c == '_'

/-- The regex test of n8nService.ts line 93: one to fifteen characters, all
alphanumeric or underscore, anchored at both ends. -/
def twitterHandleTest (s : String) : Bool :=
  let cs := s.toList
  Nat.ble 1 cs.length && Nat.ble cs.length 15 && cs.all isHandleChar

/-- The regex test of n8nService.ts line 101. The pattern is an alternation
whose first branch is anchored at the start and whose second branch
(youtu.be/) is unanchored, so it matches anywhere in the string. -/
def youtubeUrlTest (s : String) : Bool :=
  strStartsWith s "https://youtube.com/watch?v=" ||
  strStartsWith s "https://www.youtube.com/watch?v=" ||
  strContainsSub s "youtu.be/"

/-- n8nService.ts validateGenerationRequest. The content-source-required check
of the source cannot fire here because content_source is a non-optional
enumeration in the embedding, exactly as in the declared TypeScript type. -/
def validateGenerationRequest (r : GenerationRequest) : List String :=
  let e1 := if strFalsy (some r.profile_id) then ["Voice profile is required"] else []
  let e2 := if strFalsy (some r.newsletter_name) then ["Newsletter name is required"] else []
  let e3 :=
    match r.content_source with
    | ContentSource.twitter =>
      if strFalsy r.twitter_username then ["Twitter username is required"]
      else if twitterHandleTest ((r.twitter_username).getD "") then []
      else ["Invalid Twitter username format"]
    | ContentSource.youtube =>
      if strFalsy r.youtube_url then ["YouTube URL is required"]
      else if youtubeUrlTest ((r.youtube_url).getD "") then []
      else ["Invalid YouTube URL format"]
    | ContentSource.article =>
      if strFalsy r.article_content then ["Article content is required"]
      else if ((r.article_content).getD "").toList.length < 100 then
        ["Article content must be at least 100 characters"]
      else if 50000 < ((r.article_content).getD "").toList.length then
        ["Article content must be less than 50,000 characters"]
      else []
  e1 ++ e2 ++ e3

/-- The voice_profile sub-object embedded into the wire payload
(types.ts N8nWebhookPayload.voice_profile). -/
structure VoiceProfileWire where
  profile_name : String
  tone : List String
  formality : Nat
  detail_level : Nat
  sentence_style : SentenceStyle
  vocabulary_level : VocabularyLevel
  common_phrases : List String
  avoid_phrases : List String
  uses_questions : Bool
  uses_data : Bool
  uses_anecdotes : Bool
  uses_metaphors : Bool
  uses_humor : Bool
  samples : List WritingSample
deriving DecidableEq, Repr

/-- src/types.ts N8nWebhookPayload, the outbound wire request. -/
structure N8nWebhookPayload where
  user_id : String
  profile_id : String
  generation_id : String
  newsletter_name : String
  content_source : ContentSource
  twitter_username : Option String
  youtube_url : Option String
  article_content : Option String
  voice_profile : VoiceProfileWire
  callback_url : String
deriving DecidableEq, Repr

/-- Payload construction of triggerNewsletterGeneration
(n8nService.ts lines 27-53): each source field carries value-or-null and is
kept only when the content-source kind selects it. -/
def buildN8nPayload (userId profileId generationId : String)
    (request : GenerationRequest) (vp : VoiceProfile) (callbackUrl : String) :
    N8nWebhookPayload :=
  { user_id := userId
    profile_id := profileId
    generation_id := generationId
    newsletter_name := request.newsletter_name
    content_source := request.content_source
    twitter_username :=
      if request.content_source = ContentSource.twitter then orNullStr request.twitter_username else none
    youtube_url :=
      if request.content_source = ContentSource.youtube then orNullStr request.youtube_url else none
    article_content :=
      if request.content_source = ContentSource.article then orNullStr request.article_content else none
    voice_profile :=
      { profile_name := vp.profile_name
        tone := vp.tone
        formality := vp.formality
        detail_level := vp.detail_level
        sentence_style := vp.sentence_style
        vocabulary_level := vp.vocabulary_level
        common_phrases := vp.common_phrases
        avoid_phrases := vp.avoid_phrases
        uses_questions := vp.uses_questions
        uses_data := vp.uses_data
        uses_anecdotes := vp.uses_anecdotes
        uses_metaphors := vp.uses_metaphors
        uses_humor := vp.uses_humor
        samples := vp.samples }
    callback_url := callbackUrl }

/-- Number of non-null source fields in a constructed wire payload. -/
def sourceFieldCount (p : N8nWebhookPayload) : Nat :=
  (if p.twitter_username.isSome then 1 else 0) +
  (if p.youtube_url.isSome then 1 else 0) +
  (if p.article_content.isSome then 1 else 0)

-- ---------------------------------------------------------------------------
-- Completion-callback handler (src/api/webhook.ts)
-- ---------------------------------------------------------------------------

/-- src/api/webhook.ts N8nCompletionPayload. generation_id is optional here
because the handler must reject payloads in which it is missing; the article
entries share the persisted article structure (the handler stores the array
verbatim and reads only word_count). -/
structure N8nCompletionPayload where
  execution_id : String
  generation_id : Option String
  user_id : String
  status : CallbackStatus
  newsletters : Option (List NewsletterArticle)
  google_drive_folder : Option String
  google_drive_files : Option (List GoogleDriveFile)
  execution_time_seconds : Option Nat
  total_words : Option Nat
  error_message : Option String
deriving DecidableEq, Repr

/-- webhook.ts lines 63-64: the stored total is payload.total_words when that
is truthy (present and nonzero), otherwise the sum of the per-article counts
when the article list is present, otherwise 0. -/
def callbackWordCountTotal (p : N8nCompletionPayload) : Nat :=
  let fallback := ((p.newsletters).getD []).foldl (fun s n => s + n.word_count) 0
  match p.total_words with
  | none => fallback
  | some w => if w = 0 then fallback else w

/-- webhook.ts lines 67-81 applied to one matching row: the update object
always carries status and n8n_execution_id; on completed it additionally
carries the articles (dropped from the JSON body when absent from the
payload, hence left untouched), folder-or-null, files, time-or-null, the
computed word total and a fresh completed timestamp; on failed it carries
only the error message. No field of the stored row is consulted first. -/
def applyCallback (g : Generation) (p : N8nCompletionPayload) (now : String) : Generation :=
  match p.status with
  | CallbackStatus.completed =>
    { g with
      status := GenerationStatus.completed
      n8n_execution_id := some p.execution_id
      newsletters := match p.newsletters with
        | some ns => some ns
        | none => g.newsletters
      google_drive_folder := orNullStr p.google_drive_folder
      google_drive_files := p.google_drive_files
      execution_time_seconds := orNullNat p.execution_time_seconds
      word_count_total := some (callbackWordCountTotal p)
      completed_at := some now }
  | CallbackStatus.failed =>
    { g with
      status := GenerationStatus.failed
      n8n_execution_id := some p.execution_id
      error_message := some ((orNullStr p.error_message).getD "Unknown error") }

/-- Responses of the webhook handler: 400 with an error body, or 200 with the
success body that echoes the generation id. The OPTIONS/405/500 branches are
outside the modelled POST-with-JSON-body path. -/
inductive WebhookResponse
  | badRequest (error : String)
  | ok (message : String) (generation_id : String)
deriving DecidableEq, Repr

/-- src/api/webhook.ts handler on a POST body: a falsy generation_id is
rejected with 400 before anything is written; otherwise every row whose id
equals the payload's generation id is overwritten via applyCallback and the
same 200 success acknowledgment is returned whether or not any row matched. -/
def webhookHandler (store : List Generation) (p : N8nCompletionPayload) (now : String) :
    List Generation × WebhookResponse :=
  if strFalsy p.generation_id then
    (store, WebhookResponse.badRequest "Missing generation_id")
  else
    let gid := (p.generation_id).getD ""
    (store.map (fun g => if g.id = gid then applyCallback g p now else g),
     WebhookResponse.ok "Generation updated successfully" gid)

-- ---------------------------------------------------------------------------
-- Delete-generation handler (src/api/delete-generation.ts)
-- ---------------------------------------------------------------------------

/-- Responses of the delete handler on the modelled DELETE-with-body path. -/
inductive DeleteResponse
  | badRequest (error : String)
  | ok (message : String) (generation_id : String)
deriving DecidableEq, Repr

/-- src/api/delete-generation.ts handler: missing ids are rejected with 400;
otherwise rows matching both the generation id and the user id are removed
and the 200 success acknowledgment is returned whether or not any row was
removed. -/
def deleteHandler (store : List Generation) (generationId userId : Option String) :
    List Generation × DeleteResponse :=
  if strFalsy generationId then
    (store, DeleteResponse.badRequest "Missing generation_id")
  else if strFalsy userId then
    (store, DeleteResponse.badRequest "Missing user_id")
  else
    let gid := generationId.getD ""
    let uid := userId.getD ""
    (store.filter (fun g => !(g.id == gid && g.user_id == uid)),
     DeleteResponse.ok "Generation deleted successfully" gid)

-- ---------------------------------------------------------------------------
-- Generation orchestrator (src/unnamed/part_003, with part_004 a near
-- duplicate that differs as noted below)
-- ---------------------------------------------------------------------------

/-- The synchronous dispatch reply as read by part_003 lines 443-457: besides
the declared fields of types.ts N8nWebhookResponse the code also reads a
success flag and a total_words field from the runtime object, and treats the
article list as possibly absent. -/
structure N8nSyncResponse where
  success : Bool
  execution_id : String
  user_id : String
  status : SyncStatus
  newsletters : Option (List NewsletterArticle)
  google_drive_folder : Option String
  total_words : Option Nat
  completed_at : Option String
deriving DecidableEq, Repr

/-- Outcome of the single fetch to the n8n webhook: a parsed reply, or a
non-2xx response with its status code and body. -/
inductive DispatchResult
  | ok (resp : N8nSyncResponse)
  | httpError (status : Nat) (body : String)

/-- n8nService.ts triggerNewsletterGeneration: build the wire payload, send it
once, and turn a non-2xx response into a thrown error carrying the status and
body verbatim. The send function stands for fetch. -/
def triggerNewsletterGeneration (send : N8nWebhookPayload → DispatchResult)
    (userId profileId generationId : String) (request : GenerationRequest)
    (vp : VoiceProfile) (callbackUrl : String) : Except String N8nSyncResponse :=
  match send (buildN8nPayload userId profileId generationId request vp callbackUrl) with
  | DispatchResult.ok r => Except.ok r
  | DispatchResult.httpError status body =>
      Except.error ("n8n webhook failed: " ++ toString status ++ " - " ++ body)

/-- part_003/part_004 getContentSourceValue. -/
def getContentSourceValue (r : GenerationRequest) : String :=
  match r.content_source with
  | ContentSource.twitter => (r.twitter_username).getD ""
  | ContentSource.youtube => (r.youtube_url).getD ""
  | ContentSource.article => "article"

/-- part_003 createGeneration (non-demo path): the inserted row carries the
input snapshot and status pending; the database-assigned id and creation
timestamp are passed in explicitly; every other column starts null. -/
def createGeneration (userId genId : String) (request : GenerationRequest)
    (now : String) : Generation :=
  { id := genId
    user_id := userId
    profile_id := some request.profile_id
    content_type := request.content_source
    content_source := getContentSourceValue request
    input_data := some request
    status := GenerationStatus.pending
    n8n_execution_id := none
    error_message := none
    newsletters := none
    google_drive_folder := none
    google_drive_files := none
    execution_time_seconds := none
    api_cost := none
    word_count_total := none
    created_at := now
    started_at := none
    completed_at := none }

/-- part_003 line 446: the sync reply counts as completed when its success
flag is set, its status is completed and its article list is non-empty. -/
def syncCompleted (resp : N8nSyncResponse) : Bool :=
  resp.success && decide (resp.status = SyncStatus.completed) &&
    decide (0 < ((resp.newsletters).getD []).length)

/-- Result of startGeneration: the stored record as left by the call, the
number of dispatch-client invocations (observable via a call-count stub), and
the thrown error message when the call threw. -/
structure StartOutcome where
  record : Generation
  dispatchCalls : Nat
  thrown : Option String
deriving Repr

/-- part_003 startGeneration (non-demo path), lines 312-513. It performs no
request validation. It creates the pending record, resolves the profile
(throwing, and recording failed, when absent), always invokes the dispatch
client otherwise, and applies the sync reply: on a completed reply the row is
updated to completed with the reply's articles and the reply's total_words
(left untouched when that field is absent), a started and a completed
timestamp; otherwise to processing. The export folder and file references and
the execution time of the reply are not written by this path. The part_004
duplicate differs in always writing processing regardless of the reply. -/
def startGeneration (userId genId : String) (request : GenerationRequest)
    (lookupProfile : String → Option VoiceProfile)
    (send : N8nWebhookPayload → DispatchResult)
    (callbackUrl now : String) : StartOutcome :=
  let g := createGeneration userId genId request now
  match lookupProfile request.profile_id with
  | none =>
    { record := { g with status := GenerationStatus.failed
                         error_message := some "Voice profile not found" }
      dispatchCalls := 0
      thrown := some "Voice profile not found" }
  | some vp =>
    match triggerNewsletterGeneration send userId request.profile_id genId request vp callbackUrl with
    | Except.error msg =>
      { record := { g with status := GenerationStatus.failed
                           error_message := some msg }
        dispatchCalls := 1
        thrown := some msg }
    | Except.ok resp =>
      let done := syncCompleted resp
      { record := { g with
          status := if done then GenerationStatus.completed else GenerationStatus.processing
          n8n_execution_id := some resp.execution_id
          started_at := some now
          completed_at := if done then some now else none
          newsletters := if done then resp.newsletters else none
          word_count_total :=
            if done then
              match resp.total_words with
              | some w => some w
              | none => g.word_count_total
            else none }
        dispatchCalls := 1
        thrown := none }

-- ---------------------------------------------------------------------------
-- Form-submission gate (src/components/auth/AuthForm.tsx, GenerationForm)
-- ---------------------------------------------------------------------------

/-- Outcome of GenerationForm.handleSubmit: the error list shown to the user
and whether onSubmit (and hence startGeneration) was invoked. -/
structure SubmitOutcome where
  errors : List String
  submitted : Bool
deriving DecidableEq, Repr

/-- AuthForm.tsx lines 181-192: errors are reset, the request is validated,
and a non-empty error list blocks submission; only a request with no
validation errors is handed onward. -/
def handleSubmit (r : GenerationRequest) : SubmitOutcome :=
  let errs := validateGenerationRequest r
  if 0 < errs.length then { errors := errs, submitted := false }
  else { errors := [], submitted := true }

-- ---------------------------------------------------------------------------
-- Voice-profile status update (src/services/voiceProfileService.ts)
-- ---------------------------------------------------------------------------

/-- voiceProfileService.ts updateVoiceProfileStatus lines 188-227: the update
writes the new status, refreshes updated_at, and includes approved_at (set to
the current time) only when the new status is approved; all other columns are
outside the partial update and keep their stored values. The demo branch has
identical field semantics. -/
def updateVoiceProfileStatus (p : VoiceProfile) (status : VoiceProfileStatus)
    (now : String) : VoiceProfile :=
  { p with
    status := status
    updated_at := now
    approved_at := if status = VoiceProfileStatus.approved then some now else p.approved_at }

-- ---------------------------------------------------------------------------
-- Polling (src/unnamed/part_003 lines 610-650, identical in part_004)
-- ---------------------------------------------------------------------------

/-- Outcome of the polling promise: resolved with a record, rejected because
the record was absent, or rejected with the polling-timeout error, a rejection
distinct from resolving with a failed generation. -/
inductive PollResult
  | resolved (g : Generation)
  | notFound
  | timeout
deriving DecidableEq, Repr

/-- The terminal check of the poll loop: status completed or failed. -/
def isTerminalStatus : GenerationStatus → Bool
  | GenerationStatus.completed => true
  | GenerationStatus.failed => true
  | _ => false

/-- One pollGenerationStatus loop, unrolled on the remaining attempt budget.
read n is the record returned by the n-th re-read (the loop increments its
attempts counter before each read); the returned list is the sequence of
records handed to the caller-supplied observer, one entry per read. The loop
rejects with timeout when a read is non-terminal and the attempts counter has
reached maxAttempts, which corresponds to remaining = 0 here. -/
def pollAux (read : Nat → Option Generation) : Nat → Nat → PollResult × List Generation
  | attempt, remaining =>
    match read attempt with
    | none => (PollResult.notFound, [])
    | some g =>
      if isTerminalStatus g.status then (PollResult.resolved g, [g])
      else
        match remaining with
        | 0 => (PollResult.timeout, [g])
        | r + 1 =>
          let rest := pollAux read (attempt + 1) r
          (rest.1, g :: rest.2)

/-- part_003 pollGenerationStatus: attempts start at 1 and the loop rejects
with the timeout error once attempts reaches maxAttempts on a non-terminal
read, so the remaining budget after the first read is maxAttempts - 1. -/
def pollGenerationStatus (read : Nat → Option Generation) (maxAttempts : Nat) :
    PollResult × List Generation :=
  pollAux read 1 (maxAttempts - 1)

-- ---------------------------------------------------------------------------
-- Claim C10
-- ---------------------------------------------------------------------------

/-- A concrete YouTube-source request whose url is not an https URL but
contains the substring youtu.be/ somewhere in the middle. -/
def c10Request : GenerationRequest :=
  { profile_id := "profile-1"
    newsletter_name := "My Newsletter"
    content_source := ContentSource.youtube
    twitter_username := none
    youtube_url := some "xx youtu.be/abc"
    article_content := none
    custom_instructions := none
    delivery_options := none }

/-- Claim C10: the video-url pattern anchors only its youtube.com alternative,
so a string containing the substring youtu.be/ anywhere is accepted even
though it does not start with https://; validateGenerationRequest reports no
URL-format error for such a request. -/
theorem youtube_url_validation_accepts_unanchored :
    validateGenerationRequest c10Request = [] ∧
    strStartsWith ((c10Request.youtube_url).getD "") "https://" = false := by
  constructor
  · rfl
  · rfl

-- ---------------------------------------------------------------------------
-- Concrete fixtures shared by the remaining claims
-- ---------------------------------------------------------------------------

/-- A voice profile owned by user-b, used as the resolved profile in the
orchestrator scenarios. -/
def vp0 : VoiceProfile :=
  { id := "profile-1"
    user_id := "user-b"
    profile_name := "My Voice"
    newsletter_name := "My Newsletter"
    tone := ["bold"]
    formality := 3
    detail_level := 3
    sentence_style := SentenceStyle.mixed
    vocabulary_level := VocabularyLevel.professional
    common_phrases := []
    avoid_phrases := []
    uses_questions := true
    uses_data := false
    uses_anecdotes := false
    uses_metaphors := false
    uses_humor := false
    paragraph_pattern := ParagraphPattern.varied
    samples := []
    avg_sentence_length := none
    voice_prompt := none
    system_prompt := none
    status := VoiceProfileStatus.ready
    total_generations := 0
    average_rating := none
    approved_at := none
    last_used_at := none
    created_at := "2024-01-01T00:00:00Z"
    updated_at := "2024-01-01T00:00:00Z" }

/-- An article with the given ordinal and word count. -/
def mkArticle (n wc : Nat) : NewsletterArticle :=
  { newsletter_number := n
    title := "Title"
    subject_line := "Subject"
    preview_text := "Preview"
    content_markdown := "Body"
    content_html := none
    word_count := wc
    source_type := "Article"
    newsletter_type := "Newsletter Bytes"
    google_drive_url := none
    google_drive_file_id := none
    generated_at := "2024-01-01T00:03:00Z" }

/-- Five articles with the word counts of the testable-properties section. -/
def fiveArticles : List NewsletterArticle :=
  [mkArticle 1 450, mkArticle 2 380, mkArticle 3 520, mkArticle 4 410, mkArticle 5 490]

/-- A stored generation already in the terminal status completed, with its
articles, word total and timestamps populated, owned by user-b. -/
def gCompleted : Generation :=
  { id := "gen-1"
    user_id := "user-b"
    profile_id := some "profile-1"
    content_type := ContentSource.article
    content_source := "article"
    input_data := none
    status := GenerationStatus.completed
    n8n_execution_id := some "exec-1"
    error_message := none
    newsletters := some fiveArticles
    google_drive_folder := some "https://drive.google.com/drive/folders/f1"
    google_drive_files := none
    execution_time_seconds := some 185
    api_cost := none
    word_count_total := some 2250
    created_at := "2024-01-01T00:00:00Z"
    started_at := some "2024-01-01T00:00:10Z"
    completed_at := some "2024-01-01T00:03:00Z" }

/-- A stored generation still in processing, owned by user-b. -/
def gProcessing : Generation :=
  { gCompleted with
    id := "gen-2"
    status := GenerationStatus.processing
    newsletters := none
    google_drive_folder := none
    execution_time_seconds := none
    word_count_total := none
    completed_at := none }

/-- A failed completion callback addressed at the completed record gen-1. -/
def pFailed : N8nCompletionPayload :=
  { execution_id := "exec-2"
    generation_id := some "gen-1"
    user_id := "user-b"
    status := CallbackStatus.failed
    newsletters := none
    google_drive_folder := none
    google_drive_files := none
    execution_time_seconds := none
    total_words := none
    error_message := some "workflow crashed" }

/-- A completed completion callback addressed at the processing record gen-2,
with no explicit total so the handler derives it from the article counts. -/
def pCompleted : N8nCompletionPayload :=
  { execution_id := "exec-3"
    generation_id := some "gen-2"
    user_id := "user-b"
    status := CallbackStatus.completed
    newsletters := some fiveArticles
    google_drive_folder := some "https://drive.google.com/drive/folders/f1"
    google_drive_files := none
    execution_time_seconds := some 185
    total_words := none
    error_message := none }

-- ---------------------------------------------------------------------------
-- Claim C1
-- ---------------------------------------------------------------------------

/-- Claim C1 counterexample: delivering a failed callback for the completed
generation gen-1 does mutate the stored record — its status is overwritten
from completed to failed and an error message appears — so the contradicting
terminal write is not detected and dropped. -/
theorem conflicting_failed_overwrites_completed_cex :
    gCompleted.status = GenerationStatus.completed ∧
    ((webhookHandler [gCompleted] pFailed "2024-01-01T00:05:00Z").1.head?).map Generation.status
      = some GenerationStatus.failed ∧
    ((webhookHandler [gCompleted] pFailed "2024-01-01T00:05:00Z").1.head?).map Generation.error_message
      = some (some "workflow crashed") ∧
    (webhookHandler [gCompleted] pFailed "2024-01-01T00:05:00Z").1 ≠ [gCompleted] := by
  refine ⟨rfl, rfl, rfl, ?_⟩
  decide

/-- Claim C1 (amended): the handler performs no read-before-write terminal
check and applies any terminal callback unconditionally to the matching row.
A failed callback overwrites the status to failed and sets the error message
while the articles, word total and both timestamps keep their stored values;
a completed callback overwrites the status to completed and re-stamps the
completed timestamp while leaving any stored error message in place. -/
theorem callback_terminal_overwrite
    (g : Generation) (p : N8nCompletionPayload) (now : String) :
    (p.status = CallbackStatus.failed →
      (applyCallback g p now).status = GenerationStatus.failed ∧
      (applyCallback g p now).error_message = some ((orNullStr p.error_message).getD "Unknown error") ∧
      (applyCallback g p now).newsletters = g.newsletters ∧
      (applyCallback g p now).word_count_total = g.word_count_total ∧
      (applyCallback g p now).started_at = g.started_at ∧
      (applyCallback g p now).completed_at = g.completed_at) ∧
    (p.status = CallbackStatus.completed →
      (applyCallback g p now).status = GenerationStatus.completed ∧
      (applyCallback g p now).completed_at = some now ∧
      (applyCallback g p now).error_message = g.error_message) ∧
    (∀ (store : List Generation) (gid : String),
      p.generation_id = some gid → strFalsy (some gid) = false →
      (webhookHandler store p now).1 =
        store.map (fun h => if h.id = gid then applyCallback h p now else h)) := by
  refine ⟨?_, ?_, ?_⟩
  · intro hs
    simp [applyCallback, hs]
  · intro hs
    simp [applyCallback, hs]
  · intro store gid hgid hf
    simp [webhookHandler, hgid, hf]

/-- Witness for the amended C1 theorem at the concrete conflicting delivery. -/
theorem callback_terminal_overwrite_witness :
    (applyCallback gCompleted pFailed "2024-01-01T00:05:00Z").status = GenerationStatus.failed :=
  ((callback_terminal_overwrite gCompleted pFailed "2024-01-01T00:05:00Z").1 rfl).1

-- ---------------------------------------------------------------------------
-- Claim C2
-- ---------------------------------------------------------------------------

/-- The id column is never part of a callback update. -/
theorem applyCallback_id (g : Generation) (p : N8nCompletionPayload) (now : String) :
    (applyCallback g p now).id = g.id := by
  cases hs : p.status <;> simp [applyCallback, hs]

/-- Re-applying the same callback supersedes the first application: the row
after both deliveries equals the row after a single delivery at the second
time. -/
theorem applyCallback_applyCallback
    (g : Generation) (p : N8nCompletionPayload) (t1 t2 : String) :
    applyCallback (applyCallback g p t1) p t2 = applyCallback g p t2 := by
  cases hs : p.status <;> cases hn : p.newsletters <;>
    simp [applyCallback, hs, hn]

/-- Claim C2 counterexample: re-delivering the identical completed callback at
a later wall-clock time leaves a different stored record than the first
delivery, because the completed timestamp is re-stamped with the delivery
time; the stored completed timestamps differ. -/
theorem completion_redelivery_restamps_timestamp_cex :
    ((webhookHandler
        (webhookHandler [gProcessing] pCompleted "2024-01-01T00:03:00Z").1
        pCompleted "2024-01-01T00:04:00Z").1.head?).map Generation.completed_at
      = some (some "2024-01-01T00:04:00Z") ∧
    ((webhookHandler [gProcessing] pCompleted "2024-01-01T00:03:00Z").1.head?).map
        Generation.completed_at
      = some (some "2024-01-01T00:03:00Z") ∧
    (webhookHandler
        (webhookHandler [gProcessing] pCompleted "2024-01-01T00:03:00Z").1
        pCompleted "2024-01-01T00:04:00Z").1
      ≠ (webhookHandler [gProcessing] pCompleted "2024-01-01T00:03:00Z").1 := by
  refine ⟨rfl, rfl, ?_⟩
  decide

/-- Claim C2 (amended): applying the same completed callback twice is
idempotent in every stored field except the completed timestamp, which is
re-stamped with the second delivery time: the store after both deliveries
equals the store after a single delivery at the second time, and on a single
row the double application changes exactly the completed timestamp of the
single application. -/
theorem completion_callback_idempotent_except_completed_at
    (store : List Generation) (p : N8nCompletionPayload) (t1 t2 : String)
    (hs : p.status = CallbackStatus.completed) :
    (webhookHandler (webhookHandler store p t1).1 p t2).1 = (webhookHandler store p t2).1 ∧
    ∀ g : Generation,
      applyCallback (applyCallback g p t1) p t2 =
        { applyCallback g p t1 with completed_at := some t2 } := by
  constructor
  · by_cases hf : strFalsy p.generation_id
    · simp [webhookHandler, hf]
    · simp only [webhookHandler, hf, Bool.false_eq_true, if_false, List.map_map]
      refine List.map_congr_left ?_
      intro g _
      by_cases hid : g.id = (p.generation_id).getD ""
      · simp [Function.comp, hid, applyCallback_id, applyCallback_applyCallback]
      · simp [Function.comp, hid]
  · intro g
    cases hn : p.newsletters <;> simp [applyCallback, hs, hn]

/-- Witness for the amended C2 theorem at the concrete repeated delivery. -/
theorem completion_callback_idempotent_witness :
    (webhookHandler
        (webhookHandler [gProcessing] pCompleted "2024-01-01T00:03:00Z").1
        pCompleted "2024-01-01T00:04:00Z").1
      = (webhookHandler [gProcessing] pCompleted "2024-01-01T00:04:00Z").1 :=
  (completion_callback_idempotent_except_completed_at
      [gProcessing] pCompleted "2024-01-01T00:03:00Z" "2024-01-01T00:04:00Z" rfl).1

-- ---------------------------------------------------------------------------
-- Claim C3
-- ---------------------------------------------------------------------------

/-- A pasted-article generation request (startGeneration performs no length
validation, so a short text is accepted by this path). -/
def articleReq : GenerationRequest :=
  { profile_id := "profile-1"
    newsletter_name := "My Newsletter"
    content_source := ContentSource.article
    twitter_username := none
    youtube_url := none
    article_content := some "Pasted article body"
    custom_instructions := none
    delivery_options := none }

/-- A synchronous dispatch reply reporting completed, with five articles whose
counts sum to 2250, an export folder reference, and an explicit total_words of
999 that disagrees with the sum. -/
def respCompleted : N8nSyncResponse :=
  { success := true
    execution_id := "exec-9"
    user_id := "user-b"
    status := SyncStatus.completed
    newsletters := some fiveArticles
    google_drive_folder := some "https://drive.google.com/drive/folders/f1"
    total_words := some 999
    completed_at := some "2024-01-01T00:03:00Z" }

/-- The outcome of startGeneration on that request and reply. -/
def c3Outcome : StartOutcome :=
  startGeneration "user-b" "gen-3" articleReq (fun _ => some vp0)
    (fun _ => DispatchResult.ok respCompleted)
    "https://app.example/api/webhooks/n8n" "2024-01-01T00:00:00Z"

/-- Claim C3 counterexample: on a completed sync reply the record does reach
completed with the articles, but the stored word-count total is the reply's
total_words (999), not the sum of the per-article counts (2250), and the
reply's export folder reference is not persisted. -/
theorem sync_completed_word_total_cex :
    c3Outcome.record.status = GenerationStatus.completed ∧
    c3Outcome.record.newsletters = some fiveArticles ∧
    c3Outcome.record.word_count_total = some 999 ∧
    fiveArticles.foldl (fun s n => s + n.word_count) 0 = 2250 ∧
    c3Outcome.record.word_count_total ≠ some 2250 ∧
    respCompleted.google_drive_folder = some "https://drive.google.com/drive/folders/f1" ∧
    c3Outcome.record.google_drive_folder = none := by
  refine ⟨rfl, rfl, rfl, rfl, ?_, rfl, rfl⟩
  decide

/-- Claim C3 (amended): when the profile resolves and the dispatch send
returns a reply whose success flag is set, whose status is completed and
whose article list is non-empty, the created pending record is updated to
completed with the reply's articles, the reply's total_words as the stored
word total (left at null when the reply omits it — never recomputed from the
per-article counts), a started and a completed timestamp, and the execution
reference; the reply's export folder and file references and its execution
time are not persisted by this synchronous path. -/
theorem sync_completed_transition
    (userId genId : String) (request : GenerationRequest)
    (lookup : String → Option VoiceProfile) (vp : VoiceProfile)
    (send : N8nWebhookPayload → DispatchResult) (resp : N8nSyncResponse)
    (cb now : String)
    (hvp : lookup request.profile_id = some vp)
    (hsend : send (buildN8nPayload userId request.profile_id genId request vp cb) =
      DispatchResult.ok resp)
    (hdone : syncCompleted resp = true) :
    (createGeneration userId genId request now).status = GenerationStatus.pending ∧
    (startGeneration userId genId request lookup send cb now).record.status
      = GenerationStatus.completed ∧
    (startGeneration userId genId request lookup send cb now).record.newsletters
      = resp.newsletters ∧
    (startGeneration userId genId request lookup send cb now).record.word_count_total
      = resp.total_words ∧
    (startGeneration userId genId request lookup send cb now).record.started_at = some now ∧
    (startGeneration userId genId request lookup send cb now).record.completed_at = some now ∧
    (startGeneration userId genId request lookup send cb now).record.n8n_execution_id
      = some resp.execution_id ∧
    (startGeneration userId genId request lookup send cb now).record.google_drive_folder
      = none ∧
    (startGeneration userId genId request lookup send cb now).record.google_drive_files
      = none ∧
    (startGeneration userId genId request lookup send cb now).record.execution_time_seconds
      = none ∧
    (startGeneration userId genId request lookup send cb now).dispatchCalls = 1 := by
  have hrec :
      startGeneration userId genId request lookup send cb now =
        let g := createGeneration userId genId request now
        { record := { g with
            status := GenerationStatus.completed
            n8n_execution_id := some resp.execution_id
            started_at := some now
            completed_at := some now
            newsletters := resp.newsletters
            word_count_total :=
              match resp.total_words with
              | some w => some w
              | none => g.word_count_total }
          dispatchCalls := 1
          thrown := none } := by
    simp [startGeneration, hvp, triggerNewsletterGeneration, hsend, hdone]
  cases hw : resp.total_words <;>
    simp [hrec, createGeneration, hw]

/-- Witness for the amended C3 theorem at the concrete completed reply. -/
theorem sync_completed_transition_witness :
    c3Outcome.record.completed_at = some "2024-01-01T00:00:00Z" ∧
    c3Outcome.record.word_count_total = some 999 :=
  ⟨(sync_completed_transition "user-b" "gen-3" articleReq (fun _ => some vp0) vp0
      (fun _ => DispatchResult.ok respCompleted) respCompleted
      "https://app.example/api/webhooks/n8n" "2024-01-01T00:00:00Z"
      rfl rfl rfl).2.2.2.2.2.1,
   (sync_completed_transition "user-b" "gen-3" articleReq (fun _ => some vp0) vp0
      (fun _ => DispatchResult.ok respCompleted) respCompleted
      "https://app.example/api/webhooks/n8n" "2024-01-01T00:00:00Z"
      rfl rfl rfl).2.2.2.1⟩

-- ---------------------------------------------------------------------------
-- Claim C4
-- ---------------------------------------------------------------------------

/-- A video-url generation request whose url fails the video-URL format
check. -/
def badUrlReq : GenerationRequest :=
  { profile_id := "profile-1"
    newsletter_name := "My Newsletter"
    content_source := ContentSource.youtube
    twitter_username := none
    youtube_url := some "not-a-url"
    article_content := none
    custom_instructions := none
    delivery_options := none }

/-- The outcome of startGeneration on the invalid request with the profile
found and the network answering 404. -/
def c4Outcome : StartOutcome :=
  startGeneration "user-b" "gen-4" badUrlReq (fun _ => some vp0)
    (fun _ => DispatchResult.httpError 404 "not found")
    "https://app.example/api/webhooks/n8n" "2024-01-01T00:00:00Z"

/-- Claim C4 counterexample: the request does fail the URL-format check, yet
startGeneration invokes the dispatch send function exactly once (it performs
no validation), and the failed record it leaves carries the HTTP-failure
message, which mentions neither YouTube nor the URL problem. -/
theorem invalid_url_dispatch_invoked_cex :
    validateGenerationRequest badUrlReq = ["Invalid YouTube URL format"] ∧
    c4Outcome.dispatchCalls = 1 ∧
    c4Outcome.record.status = GenerationStatus.failed ∧
    c4Outcome.record.error_message = some "n8n webhook failed: 404 - not found" := by
  exact ⟨rfl, rfl, rfl, rfl⟩

/-- Claim C4 (amended): the validation short-circuit lives in the
form-submission handler, not in startGeneration: handleSubmit hands a request
onward exactly when its validation error list is empty, and for the
"not-a-url" video request it blocks submission showing the URL-format
message; startGeneration itself performs no validation and invokes the
dispatch send function whenever the profile resolves, even for that invalid
request. -/
theorem validation_short_circuit_at_form :
    (∀ r : GenerationRequest,
      (handleSubmit r).submitted = (validateGenerationRequest r).isEmpty) ∧
    (handleSubmit badUrlReq).errors = ["Invalid YouTube URL format"] ∧
    (handleSubmit badUrlReq).submitted = false ∧
    (∀ (lookup : String → Option VoiceProfile) (send : N8nWebhookPayload → DispatchResult)
       (cb now : String) (vp : VoiceProfile),
      lookup badUrlReq.profile_id = some vp →
      (startGeneration "user-b" "gen-4" badUrlReq lookup send cb now).dispatchCalls = 1) := by
  refine ⟨?_, rfl, rfl, ?_⟩
  · intro r
    cases h : validateGenerationRequest r <;>
      simp [handleSubmit, h]
  · intro lookup send cb now vp hvp
    cases hsend : send (buildN8nPayload "user-b" badUrlReq.profile_id "gen-4" badUrlReq vp cb) <;>
      simp [startGeneration, hvp, triggerNewsletterGeneration, hsend]

/-- Witness for the amended C4 theorem at a concrete profile lookup and
network stub. -/
theorem validation_short_circuit_at_form_witness :
    (startGeneration "user-b" "gen-4" badUrlReq (fun _ => some vp0)
      (fun _ => DispatchResult.httpError 500 "server error")
      "https://app.example/api/webhooks/n8n" "2024-01-01T00:00:00Z").dispatchCalls = 1 :=
  validation_short_circuit_at_form.2.2.2 (fun _ => some vp0)
    (fun _ => DispatchResult.httpError 500 "server error")
    "https://app.example/api/webhooks/n8n" "2024-01-01T00:00:00Z" vp0 rfl

-- ---------------------------------------------------------------------------
-- Claim C5
-- ---------------------------------------------------------------------------

/-- A well-formed completed callback whose generation id matches no stored
record in the scenarios below. -/
def pUnknown : N8nCompletionPayload :=
  { pCompleted with execution_id := "exec-5", generation_id := some "gen-unknown" }

/-- A callback payload with the generation id missing. -/
def pMissing : N8nCompletionPayload :=
  { pCompleted with execution_id := "exec-6", generation_id := none }

/-- Claim C5 counterexample: a payload whose generation id is unknown is
acknowledged with exactly the same 200 success body ("Generation updated
successfully") as it would be if the record existed, so the handler does not
distinguish "accepted but generation id unknown" from "accepted and applied";
the store is left unmutated. -/
theorem unknown_id_ack_indistinguishable_cex :
    (webhookHandler [gCompleted] pUnknown "2024-01-01T00:05:00Z").2
      = WebhookResponse.ok "Generation updated successfully" "gen-unknown" ∧
    (webhookHandler [gCompleted] pUnknown "2024-01-01T00:05:00Z").1 = [gCompleted] ∧
    (webhookHandler [gCompleted] pUnknown "2024-01-01T00:05:00Z").2
      = (webhookHandler [{ gCompleted with id := "gen-unknown" }] pUnknown "2024-01-01T00:05:00Z").2 := by
  exact ⟨rfl, rfl, rfl⟩

/-- Claim C5 (amended): a payload with a missing (falsy) generation id is
rejected with a 400 error and no stored mutation; a well-formed payload whose
generation id matches no stored record also produces no stored mutation, but
is acknowledged with the same 200 success response an applied payload
receives — the handler does not signal the unknown-id case. -/
theorem callback_missing_and_unknown_id
    (store : List Generation) (p : N8nCompletionPayload) (now : String) :
    (strFalsy p.generation_id = true →
      webhookHandler store p now = (store, WebhookResponse.badRequest "Missing generation_id")) ∧
    (∀ gid : String, p.generation_id = some gid → strFalsy (some gid) = false →
      (∀ g ∈ store, g.id ≠ gid) →
      webhookHandler store p now =
        (store, WebhookResponse.ok "Generation updated successfully" gid)) := by
  constructor
  · intro hf
    simp [webhookHandler, hf]
  · intro gid hgid hf hnone
    have hmap : store.map (fun g => if g.id = gid then applyCallback g p now else g) = store := by
      induction store with
      | nil => rfl
      | cons h t ih =>
        have hh : h.id ≠ gid := hnone h (by simp)
        have ht : t.map (fun g => if g.id = gid then applyCallback g p now else g) = t :=
          ih (fun g hg => hnone g (by simp [hg]))
        simp [hh, ht]
    simp [webhookHandler, hgid, hf, hmap]

/-- Witness for the amended C5 theorem: the missing-id rejection and the
unknown-id pass-through at concrete inputs. -/
theorem callback_missing_and_unknown_id_witness :
    webhookHandler [gCompleted] pMissing "2024-01-01T00:05:00Z"
      = ([gCompleted], WebhookResponse.badRequest "Missing generation_id") ∧
    webhookHandler [gCompleted] pUnknown "2024-01-01T00:05:00Z"
      = ([gCompleted], WebhookResponse.ok "Generation updated successfully" "gen-unknown") :=
  ⟨(callback_missing_and_unknown_id [gCompleted] pMissing "2024-01-01T00:05:00Z").1 rfl,
   (callback_missing_and_unknown_id [gCompleted] pUnknown "2024-01-01T00:05:00Z").2
     "gen-unknown" rfl rfl (by decide)⟩

-- ---------------------------------------------------------------------------
-- Claim C6
-- ---------------------------------------------------------------------------

/-- Claim C6 counterexample: gen-1 is owned by user-b; deleting it as user-a
removes nothing, yet the handler answers with exactly the same 200 success
acknowledgment as the true owner's delete (which does remove the record) —
there is no not-found outcome for the wrong-owner call. -/
theorem delete_wrong_owner_success_ack_cex :
    gCompleted.user_id = "user-b" ∧
    (deleteHandler [gCompleted] (some "gen-1") (some "user-a")).1 = [gCompleted] ∧
    (deleteHandler [gCompleted] (some "gen-1") (some "user-b")).1 = [] ∧
    (deleteHandler [gCompleted] (some "gen-1") (some "user-a")).2
      = DeleteResponse.ok "Generation deleted successfully" "gen-1" ∧
    (deleteHandler [gCompleted] (some "gen-1") (some "user-a")).2
      = (deleteHandler [gCompleted] (some "gen-1") (some "user-b")).2 := by
  exact ⟨rfl, rfl, rfl, rfl, rfl⟩

/-- Claim C6 (amended): deletion is owner-scoped at the storage filter — a
wrong-owner call removes nothing and the true owner's call removes the
matching record — but the wrong-owner call does not fail with a not-found
outcome: both calls receive the identical 200 success acknowledgment. -/
theorem delete_owner_scoped
    (store : List Generation) (gid uid : String)
    (hg : strFalsy (some gid) = false) (hu : strFalsy (some uid) = false) :
    ((∀ g ∈ store, g.id = gid → g.user_id ≠ uid) →
      (deleteHandler store (some gid) (some uid)).1 = store) ∧
    (∀ g ∈ store, g.id = gid → g.user_id = uid →
      g ∉ (deleteHandler store (some gid) (some uid)).1) ∧
    (deleteHandler store (some gid) (some uid)).2 =
      DeleteResponse.ok "Generation deleted successfully" gid := by
  refine ⟨?_, ?_, ?_⟩
  · intro hmiss
    simp only [deleteHandler, hg, hu, Bool.false_eq_true, if_false]
    rw [List.filter_eq_self]
    intro g hgmem
    have := hmiss g hgmem
    by_cases hid : g.id = gid <;> by_cases huid : g.user_id = uid <;>
      simp [hid, huid] at this ⊢
  · intro g hgmem hid huid
    simp only [deleteHandler, hg, hu, Bool.false_eq_true, if_false]
    intro hmem
    rcases List.mem_filter.mp hmem with ⟨_, hpred⟩
    simp [hid, huid] at hpred
  · simp [deleteHandler, hg, hu]

/-- Witness for the amended C6 theorem at the concrete wrong-owner delete. -/
theorem delete_owner_scoped_witness :
    (deleteHandler [gCompleted] (some "gen-1") (some "user-a")).1 = [gCompleted] :=
  (delete_owner_scoped [gCompleted] "gen-1" "user-a" rfl rfl).1 (by decide)

-- ---------------------------------------------------------------------------
-- Claim C7
-- ---------------------------------------------------------------------------

/-- A social-handle request whose handle is the empty string. startGeneration
hands such a request to the dispatch client unvalidated. -/
def emptyHandleReq : GenerationRequest :=
  { profile_id := "profile-1"
    newsletter_name := "My Newsletter"
    content_source := ContentSource.twitter
    twitter_username := some ""
    youtube_url := none
    article_content := none
    custom_instructions := none
    delivery_options := none }

/-- A sync reply reporting pending, used as an inert network stub. -/
def respPending : N8nSyncResponse :=
  { success := false
    execution_id := "exec-7"
    user_id := "user-b"
    status := SyncStatus.pending
    newsletters := none
    google_drive_folder := none
    total_words := none
    completed_at := none }

/-- Claim C7 counterexample: a social-handle request with an empty handle is
handed to the dispatch client by startGeneration (one send invocation), and
the wire payload it constructs has zero non-null source fields — the
value-or-null construction nulls the selected field too — refuting "exactly
one non-null for every request handed to the dispatch client". -/
theorem empty_handle_zero_source_fields_cex :
    sourceFieldCount
      (buildN8nPayload "user-b" "profile-1" "gen-7" emptyHandleReq vp0
        "https://app.example/api/webhooks/n8n") = 0 ∧
    (buildN8nPayload "user-b" "profile-1" "gen-7" emptyHandleReq vp0
        "https://app.example/api/webhooks/n8n").twitter_username = none ∧
    (startGeneration "user-b" "gen-7" emptyHandleReq (fun _ => some vp0)
        (fun _ => DispatchResult.ok respPending)
        "https://app.example/api/webhooks/n8n" "2024-01-01T00:00:00Z").dispatchCalls = 1 := by
  exact ⟨rfl, rfl, rfl⟩

/-- Claim C7 (amended): every constructed wire payload has at most one
non-null source field, with all three keys always present; when the request
passes pre-send validation (so the selected field is non-empty) exactly one
source field is non-null — the one selected by the content-source kind, which
carries the request's value — and the other two are explicitly null, for all
three source kinds. -/
theorem dispatch_payload_source_fields
    (userId profileId generationId cb : String) (r : GenerationRequest) (vp : VoiceProfile) :
    sourceFieldCount (buildN8nPayload userId profileId generationId r vp cb) ≤ 1 ∧
    (validateGenerationRequest r = [] →
      sourceFieldCount (buildN8nPayload userId profileId generationId r vp cb) = 1 ∧
      (buildN8nPayload userId profileId generationId r vp cb).twitter_username =
        (if r.content_source = ContentSource.twitter then r.twitter_username else none) ∧
      (buildN8nPayload userId profileId generationId r vp cb).youtube_url =
        (if r.content_source = ContentSource.youtube then r.youtube_url else none) ∧
      (buildN8nPayload userId profileId generationId r vp cb).article_content =
        (if r.content_source = ContentSource.article then r.article_content else none)) := by
  constructor
  · cases hsrc : r.content_source
    · cases h : orNullStr r.twitter_username <;>
        simp [buildN8nPayload, sourceFieldCount, hsrc, h]
    · cases h : orNullStr r.youtube_url <;>
        simp [buildN8nPayload, sourceFieldCount, hsrc, h]
    · cases h : orNullStr r.article_content <;>
        simp [buildN8nPayload, sourceFieldCount, hsrc, h]
  · intro hv
    cases hsrc : r.content_source
    case twitter =>
      cases hb : strFalsy r.twitter_username
      case false =>
        cases ht : r.twitter_username with
        | none =>
          rw [ht] at hb
          exact absurd hb (by simp [strFalsy])
        | some s =>
          have hs : s.toList.isEmpty = false := by
            rw [ht] at hb
            simpa [strFalsy] using hb
          have hs2 : ¬s.data = [] := fun hnil => by
            simp [String.toList, hnil] at hs
          refine ⟨?_, ?_, ?_, ?_⟩ <;>
            simp [buildN8nPayload, sourceFieldCount, hsrc, ht, orNullStr, hs, hs2]
      case true =>
        exfalso
        have hmem : "Twitter username is required" ∈ validateGenerationRequest r := by
          simp [validateGenerationRequest, hsrc, hb]
        rw [hv] at hmem
        exact absurd hmem (List.not_mem_nil _)
    case youtube =>
      cases hb : strFalsy r.youtube_url
      case false =>
        cases ht : r.youtube_url with
        | none =>
          rw [ht] at hb
          exact absurd hb (by simp [strFalsy])
        | some s =>
          have hs : s.toList.isEmpty = false := by
            rw [ht] at hb
            simpa [strFalsy] using hb
          have hs2 : ¬s.data = [] := fun hnil => by
            simp [String.toList, hnil] at hs
          refine ⟨?_, ?_, ?_, ?_⟩ <;>
            simp [buildN8nPayload, sourceFieldCount, hsrc, ht, orNullStr, hs, hs2]
      case true =>
        exfalso
        have hmem : "YouTube URL is required" ∈ validateGenerationRequest r := by
          simp [validateGenerationRequest, hsrc, hb]
        rw [hv] at hmem
        exact absurd hmem (List.not_mem_nil _)
    case article =>
      cases hb : strFalsy r.article_content
      case false =>
        cases ht : r.article_content with
        | none =>
          rw [ht] at hb
          exact absurd hb (by simp [strFalsy])
        | some s =>
          have hs : s.toList.isEmpty = false := by
            rw [ht] at hb
            simpa [strFalsy] using hb
          have hs2 : ¬s.data = [] := fun hnil => by
            simp [String.toList, hnil] at hs
          refine ⟨?_, ?_, ?_, ?_⟩ <;>
            simp [buildN8nPayload, sourceFieldCount, hsrc, ht, orNullStr, hs, hs2]
      case true =>
        exfalso
        have hmem : "Article content is required" ∈ validateGenerationRequest r := by
          simp [validateGenerationRequest, hsrc, hb]
        rw [hv] at hmem
        exact absurd hmem (List.not_mem_nil _)

/-- A valid social-handle request with the handle of the testable-properties
section. -/
def handleReq : GenerationRequest :=
  { profile_id := "profile-1"
    newsletter_name := "My Newsletter"
    content_source := ContentSource.twitter
    twitter_username := some "beehiiv"
    youtube_url := none
    article_content := none
    custom_instructions := none
    delivery_options := none }

/-- Witness for the amended C7 theorem at a concrete validated request. -/
theorem dispatch_payload_source_fields_witness :
    sourceFieldCount
      (buildN8nPayload "user-b" "profile-1" "gen-8" handleReq vp0
        "https://app.example/api/webhooks/n8n") = 1 :=
  ((dispatch_payload_source_fields "user-b" "profile-1" "gen-8"
      "https://app.example/api/webhooks/n8n" handleReq vp0).2 rfl).1

-- ---------------------------------------------------------------------------
-- Claim C8
-- ---------------------------------------------------------------------------

/-- A processing record is not terminal for the poll loop. -/
theorem isTerminalStatus_processing :
    isTerminalStatus GenerationStatus.processing = false := rfl

/-- Claim C8: polling a record that stays in processing on every read with an
attempt budget of 3 hands a record to the observer on each of exactly 3 reads
and then rejects with the timeout outcome; a terminal record observed on any
read within the budget resolves the poll with that record; and the timeout
outcome is distinct from resolving with any (in particular failed) record. -/
theorem poll_timeout_after_three_reads :
    (∀ read : Nat → Option Generation,
      (∀ n, ∃ g, read n = some g ∧ g.status = GenerationStatus.processing) →
      (pollGenerationStatus read 3).1 = PollResult.timeout ∧
      (pollGenerationStatus read 3).2.length = 3) ∧
    (∀ (read : Nat → Option Generation) (g : Generation) (n : Nat),
      1 ≤ n → n ≤ 3 →
      (∀ m, 1 ≤ m → m < n → ∃ g2, read m = some g2 ∧ g2.status = GenerationStatus.processing) →
      read n = some g → isTerminalStatus g.status = true →
      (pollGenerationStatus read 3).1 = PollResult.resolved g) ∧
    (∀ g : Generation, PollResult.timeout ≠ PollResult.resolved g) := by
  refine ⟨?_, ?_, ?_⟩
  · intro read h
    obtain ⟨g1, h1, s1⟩ := h 1
    obtain ⟨g2, h2, s2⟩ := h 2
    obtain ⟨g3, h3, s3⟩ := h 3
    constructor <;>
      simp [pollGenerationStatus, pollAux, h1, h2, h3, s1, s2, s3, isTerminalStatus]
  · intro read g n hn1 hn3 hpre hread hterm
    interval_cases n
    · simp [pollGenerationStatus, pollAux, hread, hterm]
    · obtain ⟨g1, h1, s1⟩ := hpre 1 (by omega) (by omega)
      simp [pollGenerationStatus, pollAux, h1, s1, isTerminalStatus_processing, hread, hterm]
    · obtain ⟨g1, h1, s1⟩ := hpre 1 (by omega) (by omega)
      obtain ⟨g2, h2, s2⟩ := hpre 2 (by omega) (by omega)
      simp [pollGenerationStatus, pollAux, h1, h2, s1, s2, isTerminalStatus_processing, hread,
        hterm]
  · intro g h
    exact PollResult.noConfusion h

/-- Witness for C8: a constant-processing read times out after 3 observed
reads, and a read that is terminal on the first attempt resolves. -/
theorem poll_timeout_after_three_reads_witness :
    (pollGenerationStatus (fun _ => some gProcessing) 3).1 = PollResult.timeout ∧
    (pollGenerationStatus (fun _ => some gProcessing) 3).2.length = 3 ∧
    (pollGenerationStatus (fun _ => some gCompleted) 3).1 = PollResult.resolved gCompleted :=
  ⟨(poll_timeout_after_three_reads.1 (fun _ => some gProcessing)
      (fun _ => ⟨gProcessing, rfl, rfl⟩)).1,
   (poll_timeout_after_three_reads.1 (fun _ => some gProcessing)
      (fun _ => ⟨gProcessing, rfl, rfl⟩)).2,
   poll_timeout_after_three_reads.2.1 (fun _ => some gCompleted) gCompleted 1
     (by omega) (by omega) (fun m hm1 hm2 => absurd hm1 (by omega)) rfl rfl⟩

-- ---------------------------------------------------------------------------
-- Claim C9
-- ---------------------------------------------------------------------------

/-- Claim C9: updateVoiceProfileStatus writes the new status and refreshes
updated_at for every status value, stamps approved_at with the update time
exactly when the new status is approved and leaves the previously stored
approved_at unchanged otherwise, and touches no other field. -/
theorem updateVoiceProfileStatus_approved_stamp
    (p : VoiceProfile) (s : VoiceProfileStatus) (now : String) :
    (updateVoiceProfileStatus p s now).status = s ∧
    (updateVoiceProfileStatus p s now).updated_at = now ∧
    (updateVoiceProfileStatus p s now).approved_at =
      (if s = VoiceProfileStatus.approved then some now else p.approved_at) ∧
    (updateVoiceProfileStatus p s now).id = p.id ∧
    (updateVoiceProfileStatus p s now).user_id = p.user_id ∧
    (updateVoiceProfileStatus p s now).profile_name = p.profile_name ∧
    (updateVoiceProfileStatus p s now).tone = p.tone ∧
    (updateVoiceProfileStatus p s now).samples = p.samples ∧
    (updateVoiceProfileStatus p s now).voice_prompt = p.voice_prompt ∧
    (updateVoiceProfileStatus p s now).system_prompt = p.system_prompt ∧
    (updateVoiceProfileStatus p s now).total_generations = p.total_generations ∧
    (updateVoiceProfileStatus p s now).average_rating = p.average_rating ∧
    (updateVoiceProfileStatus p s now).last_used_at = p.last_used_at ∧
    (updateVoiceProfileStatus p s now).created_at = p.created_at := by
  exact ⟨rfl, rfl, rfl, rfl, rfl, rfl, rfl, rfl, rfl, rfl, rfl, rfl, rfl, rfl⟩

end NE
